import Mathlib

/-!
Verification of the fake/duplicate report detector of this repository
(`ai/fake_detection.py`, class `FakeReportDetector`).

Modelling choices of the shallow embedding:

* Python floats are modelled as rationals (`ℚ`); all constants involved
  (0.1, 0.2, 0.3, 0.4, 0.5, 0.7, 0.8, 0.9, 1.0, 1024, 30) are exactly
  representable and no claim sits on a float-rounding boundary.
* Python strings are modelled as `String`; the character-level operations
  (`lower`, `strip`, `split`, `set(...)`, substring `in`) are implemented over
  `List Char` so that every definition kernel-evaluates on concrete inputs.
* A recent report (a Python dict) is modelled by the structure `Report`
  holding exactly the fields the detector reads: `text`, `voice_text`,
  `location.latitude/longitude`, `created_at`.  `created_at` is modelled as
  the already-parsed timestamp in minutes (`Option ℚ`); `none` stands for a
  missing or unparsable timestamp, which the code skips.  `datetime.utcnow()`
  is the parameter `now` (minutes on the same clock), so the Python
  `current_time - report_time <= timedelta(minutes=30)` becomes
  `now - t ≤ 30`.
* The image check (`os.path.exists` / `os.path.getsize` / exception) is
  modelled by the inductive `ImageRef`: the three observable outcomes of the
  filesystem probe.
* `_haversine_km` is a composition of `sin`, `cos`, `asin`, `sqrt` over
  floats; it is kept abstract as a distance-function parameter
  `d : ℚ → ℚ → ℚ → ℚ → ℚ` of the proximity checker, so the theorems about the
  proximity control flow hold for the haversine distance (Earth radius
  6371 km) in particular.
* `_calculate_text_similarity` depends on scikit-learn's TfidfVectorizer;
  the similarity backend is therefore an abstract parameter
  `sim : String → List String → ℚ` of the aggregator `is_fake`.  The
  repository's own fallback `_heuristic_text_similarity` (pure Python,
  Jaccard word overlap) is embedded in full and used to instantiate `sim`
  on concrete inputs.
* The sequential accumulation of `total_score` / `weight_sum` in
  `FakeReportDetector.is_fake` is embedded as the definitions `total_score`
  and `weight_sum`; the guard of each conditional contribution is spelled
  exactly as in the source (`sim_evaluated`, `prox_evaluated`).
-/

namespace FakeDetect

/-- Configuration constant `self.min_text_length = 10`. -/
def min_text_length : ℕ := 10

/-- Configuration constant `self.proximity_threshold_km = 0.1` (100 meters). -/
def proximity_threshold_km : ℚ := 1/10

/-- Configuration constant `self.similarity_threshold = 0.7`, used as the
final fake threshold in `is_fake`. -/
def similarity_threshold : ℚ := 7/10

/-- Configuration constant `self.temporal_window_minutes = 30`. -/
def temporal_window_minutes : ℚ := 30

/-- The `location` sub-dict of a recent report; each coordinate may be
missing (`location.get(...) is None`). -/
structure Location where
  latitude : Option ℚ
  longitude : Option ℚ
deriving DecidableEq

/-- A recent report, holding exactly the dict fields the detector reads.
`created_at` is the parsed timestamp in minutes; `none` models a missing or
unparsable `created_at` string (skipped by the temporal check). -/
structure Report where
  text : Option String
  voice_text : Option String
  location : Option Location
  created_at : Option ℚ
deriving DecidableEq

/-- Observable outcome of probing `image_path` in `_validate_content`:
`os.path.exists` false, exists with a byte size, or the probe raised. -/
inductive ImageRef where
  | notFound : ImageRef
  | found (size_bytes : ℕ) : ImageRef
  | checkError : ImageRef
deriving DecidableEq

/-- Character-level model of Python `str.lower()`. -/
def lower_chars (s : String) : List Char := s.toList.map Char.toLower

/-- Helper of `split_words`: accumulates the current word (reversed) while
scanning; mirrors Python `str.split()` (split on whitespace runs, no empty
words). -/
def split_words_aux : List Char → List Char → List (List Char)
  | cur, [] => if cur.isEmpty then [] else [cur.reverse]
  | cur, c :: rest =>
    if c.isWhitespace then
      if cur.isEmpty then split_words_aux [] rest
      else cur.reverse :: split_words_aux [] rest
    else split_words_aux (c :: cur) rest

/-- Python `str.split()` over a character list. -/
def split_words (s : List Char) : List (List Char) := split_words_aux [] s

/-- Python `set(text.lower().split())`: the set of lowercased words. -/
def word_set (s : String) : Finset (List Char) :=
  (split_words (lower_chars s)).toFinset

/-- Python substring test `needle in hay` over character lists. -/
def contains_sub (needle : List Char) : List Char → Bool
  | [] => needle.isEmpty
  | c :: rest => decide (needle = (c :: rest).take needle.length) || contains_sub needle rest

/-- Python `len(text.strip())`: length after removing leading and trailing
whitespace. -/
def stripped_length (s : String) : ℕ :=
  ((s.toList.dropWhile Char.isWhitespace).reverse.dropWhile Char.isWhitespace).length

/-- The fixed spam phrase list of `_validate_content`. -/
def spam_indicators : List String := ["click here", "free", "win now", "limited time", "act now"]

/-- Python `spam_count = sum(1 for indicator in spam_indicators if indicator
in text.lower())`. -/
def spam_count (text : String) : ℕ :=
  (spam_indicators.filter (fun ind => contains_sub ind.toList (lower_chars text))).length

/-- The spam branch of `_validate_content`: `if spam_count > 0:
suspicion_score += 0.5`. -/
def spam_penalty (text : String) : ℚ := if 0 < spam_count text then 1/2 else 0

/-- The short-text branch: `if len(text.strip()) < self.min_text_length:
suspicion_score += 0.3`. -/
def length_penalty (text : String) : ℚ :=
  if stripped_length text < min_text_length then 3/10 else 0

/-- The gibberish branch: `if len(set(text.lower())) < len(text) * 0.3:
suspicion_score += 0.4`. -/
def gibberish_penalty (text : String) : ℚ :=
  if ((lower_chars text).dedup.length : ℚ) < (text.toList.length : ℚ) * (3/10) then 4/10 else 0

/-- Model of Python `text.isupper()`: at least one cased character and no
lowercase character. -/
def is_upper_text (text : String) : Bool :=
  (text.toList.any fun c => c.isUpper || c.isLower) && (text.toList.all fun c => !c.isLower)

/-- The uppercase branch: `if text.isupper() and len(text) > 20:
suspicion_score += 0.2`. -/
def upper_penalty (text : String) : ℚ :=
  if is_upper_text text && decide (20 < text.toList.length) then 2/10 else 0

/-- The image branch of `_validate_content`: missing file `+0.3`, file under
1024 bytes `+0.4`, probe error `+0.2`, no image `+0`. -/
def image_penalty : Option ImageRef → ℚ
  | none => 0
  | some ImageRef.notFound => 3/10
  | some (ImageRef.found size_bytes) => if size_bytes < 1024 then 4/10 else 0
  | some ImageRef.checkError => 2/10

/-- The additive `suspicion_score` accumulator of `_validate_content` before
capping: the four text branches (only when text is present) plus the image
branch. -/
def suspicion_raw (text : String) (image_path : Option ImageRef) : ℚ :=
  (if text ≠ "" then
    length_penalty text + gibberish_penalty text + spam_penalty text + upper_penalty text
   else 0) + image_penalty image_path

/-- Embedding of `FakeReportDetector._validate_content`: early return
`(False, 0.9)` when both text and image are absent, otherwise the additive
suspicion score, returned as `(suspicion < 0.7, min(suspicion, 1.0))`. -/
def validate_content (text : String) (image_path : Option ImageRef) : Bool × ℚ :=
  if text = "" ∧ image_path = none then (false, 9/10)
  else (decide (suspicion_raw text image_path < 7/10), min (suspicion_raw text image_path) 1)

/-- Jaccard similarity `len(intersection) / len(union)` of two word sets
(division by zero yields 0, matching the `if union:` guard). -/
def jaccard (a b : Finset (List Char)) : ℚ := ((a ∩ b).card : ℚ) / ((a ∪ b).card : ℚ)

/-- One iteration of the corpus loop of `_heuristic_text_similarity`:
skip empty corpus text, skip empty word set, otherwise take the max with the
Jaccard similarity (under the `if union:` guard of the source). -/
def heuristic_step (text_words : Finset (List Char)) (acc : ℚ) (corpus_text : String) : ℚ :=
  if corpus_text = "" then acc
  else if word_set corpus_text = ∅ then acc
  else if text_words ∪ word_set corpus_text = ∅ then acc
  else max acc (jaccard text_words (word_set corpus_text))

/-- Embedding of `FakeReportDetector._heuristic_text_similarity`: maximum
Jaccard word-overlap of `text` against the corpus, 0 on degenerate input. -/
def heuristic_text_similarity (text : String) (corpus : List String) : ℚ :=
  if text = "" ∨ corpus = [] then 0
  else if word_set text = ∅ then 0
  else corpus.foldl (heuristic_step (word_set text)) 0

/-- Extraction of a recent report's coordinates as in
`_check_location_proximity`: `location = report.get("location") or {}`, then
both of `location.get("latitude")` / `location.get("longitude")` must be
present. -/
def report_coords (r : Report) : Option (ℚ × ℚ) :=
  match r.location with
  | none => none
  | some loc =>
    match loc.latitude, loc.longitude with
    | some rla, some rlo => some (rla, rlo)
    | _, _ => none

/-- Embedding of `FakeReportDetector._check_location_proximity`, parametric
in the distance function `d` (in the source, `_haversine_km`, the great
circle distance with Earth radius 6371 km): missing coordinate → `false`;
out-of-range coordinates → `true`; otherwise `true` iff some recent report
with coordinates lies within `proximity_threshold_km` of the input point.
Reports without usable coordinates are skipped. -/
def check_location_proximity (d : ℚ → ℚ → ℚ → ℚ → ℚ)
    (latitude longitude : Option ℚ) (recent_reports : List Report) : Bool :=
  match latitude, longitude with
  | some input_lat, some input_lng =>
    if ¬(-90 ≤ input_lat ∧ input_lat ≤ 90 ∧ -180 ≤ input_lng ∧ input_lng ≤ 180) then true
    else
      recent_reports.any fun report =>
        match report_coords report with
        | some (rla, rlo) => decide (d input_lat input_lng rla rlo ≤ proximity_threshold_km)
        | none => false
  | _, _ => false

/-- The per-report window test of `_check_temporal_patterns`: the timestamp
parsed and `current_time - report_time <= timedelta(minutes=30)`. -/
def within_window (now : ℚ) (r : Report) : Bool :=
  match r.created_at with
  | some t => decide (now - t ≤ temporal_window_minutes)
  | none => false

/-- The `recent_count` accumulator of `_check_temporal_patterns`: how many
recent reports carry a parsable timestamp inside the window. -/
def recent_count (now : ℚ) (recent_reports : List Report) : ℕ :=
  (recent_reports.filter (within_window now)).length

/-- Embedding of `FakeReportDetector._check_temporal_patterns`: count the
recent reports inside the 30-minute window and map the count through the
threshold ladder 5 → 0.8, 3 → 0.5, 2 → 0.3, otherwise 0. -/
def check_temporal_patterns (now : ℚ) (recent_reports : List Report) : ℚ :=
  if recent_reports.isEmpty then 0
  else
    if 5 ≤ recent_count now recent_reports then 8/10
    else if 3 ≤ recent_count now recent_reports then 5/10
    else if 2 ≤ recent_count now recent_reports then 3/10
    else 0

/-- The corpus entry built from one recent report in `is_fake`:
`report.get("text") or report.get("voice_text") or ""`. -/
def report_text (r : Report) : String :=
  let t := r.text.getD ("")
  if t ≠ "" then t else r.voice_text.getD ("")

/-- The corpus built in `is_fake`: the nonempty `report_text` of each recent
report. -/
def build_corpus (recent_reports : List Report) : List String :=
  (recent_reports.map report_text).filter fun s => s ≠ ""

/-- The proximity contribution of `is_fake`:
`proximity_score = 0.7 if is_near else 0.0`. -/
def proximity_score (d : ℚ → ℚ → ℚ → ℚ → ℚ)
    (latitude longitude : Option ℚ) (recent_reports : List Report) : ℚ :=
  if check_location_proximity d latitude longitude recent_reports then 7/10 else 0

/-- Guard of the text-similarity contribution in `is_fake`:
`if text and recent_reports:` followed by `if corpus:`. -/
def sim_evaluated (text : String) (recent_reports : List Report) : Bool :=
  decide (text ≠ "" ∧ recent_reports ≠ [] ∧ build_corpus recent_reports ≠ [])

/-- Guard of the proximity contribution in `is_fake`:
`if latitude is not None and longitude is not None and recent_reports:`. -/
def prox_evaluated (latitude longitude : Option ℚ) (recent_reports : List Report) : Bool :=
  decide (latitude ≠ none ∧ longitude ≠ none ∧ recent_reports ≠ [])

/-- The final value of the `weight_sum` accumulator of `is_fake`: 0.3
(content) and 0.1 (temporal) unconditionally, 0.4 when the similarity signal
runs, 0.2 when the proximity signal runs. -/
def weight_sum (text : String) (latitude longitude : Option ℚ)
    (recent_reports : List Report) : ℚ :=
  3/10 + (if sim_evaluated text recent_reports then 4/10 else 0)
       + (if prox_evaluated latitude longitude recent_reports then 2/10 else 0)
       + 1/10

/-- The final value of the `total_score` accumulator of `is_fake`: the same
four contributions, each score multiplied by its weight. -/
def total_score (sim : String → List String → ℚ) (d : ℚ → ℚ → ℚ → ℚ → ℚ) (now : ℚ)
    (text : String) (image_path : Option ImageRef)
    (latitude longitude : Option ℚ) (recent_reports : List Report) : ℚ :=
  (validate_content text image_path).2 * (3/10)
  + (if sim_evaluated text recent_reports then
       sim text (build_corpus recent_reports) * (4/10) else 0)
  + (if prox_evaluated latitude longitude recent_reports then
       proximity_score d latitude longitude recent_reports * (2/10) else 0)
  + check_temporal_patterns now recent_reports * (1/10)

/-- The `final_score` normalization of `is_fake`:
`total_score / weight_sum if weight_sum > 0 else 0.0`. -/
def final_score (sim : String → List String → ℚ) (d : ℚ → ℚ → ℚ → ℚ → ℚ) (now : ℚ)
    (text : String) (image_path : Option ImageRef)
    (latitude longitude : Option ℚ) (recent_reports : List Report) : ℚ :=
  if 0 < weight_sum text latitude longitude recent_reports then
    total_score sim d now text image_path latitude longitude recent_reports /
      weight_sum text latitude longitude recent_reports
  else 0

/-- Embedding of `FakeReportDetector.is_fake`, parametric in the similarity
backend `sim` (TF-IDF cosine when scikit-learn is importable, the constant
zero function otherwise, `_heuristic_text_similarity` on a per-call backend
exception) and the distance function `d` (`_haversine_km` in the source):
normalize `total_score` by `weight_sum` when positive, threshold at 0.7. -/
def is_fake (sim : String → List String → ℚ) (d : ℚ → ℚ → ℚ → ℚ → ℚ) (now : ℚ)
    (text : String) (image_path : Option ImageRef)
    (latitude longitude : Option ℚ) (recent_reports : List Report) : Bool × ℚ :=
  (decide (similarity_threshold ≤
      final_score sim d now text image_path latitude longitude recent_reports),
   final_score sim d now text image_path latitude longitude recent_reports)

/-- Modelled from the spec: the list of `(weight, score)` pairs of exactly
the evaluated signals, in the claim's wording — content (0.3) and temporal
(0.1) always, similarity (0.4) iff text, recent window and corpus are all
nonempty, proximity (0.2) iff both coordinates are present and the recent
window is nonempty.  Used only to compare the claimed formula with the
embedded `is_fake`. -/
def evaluated_signals (sim : String → List String → ℚ) (d : ℚ → ℚ → ℚ → ℚ → ℚ) (now : ℚ)
    (text : String) (image_path : Option ImageRef)
    (latitude longitude : Option ℚ) (recent_reports : List Report) : List (ℚ × ℚ) :=
  [((3:ℚ)/10, (validate_content text image_path).2)]
  ++ (if text ≠ "" ∧ recent_reports ≠ [] ∧ build_corpus recent_reports ≠ [] then
        [((4:ℚ)/10, sim text (build_corpus recent_reports))] else [])
  ++ (if latitude ≠ none ∧ longitude ≠ none ∧ recent_reports ≠ [] then
        [((2:ℚ)/10, proximity_score d latitude longitude recent_reports)] else [])
  ++ [((1:ℚ)/10, check_temporal_patterns now recent_reports)]

/-- Modelled from the spec: `Σ(weight_i × score_i) / Σ(weight_i)` over
exactly the evaluated signals, 0.0 if no signal contributes. -/
def claimed_fake_score (sim : String → List String → ℚ) (d : ℚ → ℚ → ℚ → ℚ → ℚ) (now : ℚ)
    (text : String) (image_path : Option ImageRef)
    (latitude longitude : Option ℚ) (recent_reports : List Report) : ℚ :=
  let signals := evaluated_signals sim d now text image_path latitude longitude recent_reports
  let wsum := (signals.map Prod.fst).sum
  if wsum = 0 then 0 else ((signals.map fun p => p.1 * p.2).sum) / wsum

/-- The similarity backend of the scikit-learn-unavailable environment:
`_calculate_text_similarity` returns 0.0 whenever `self.vectorizer` is
`None`. -/
def zero_sim : String → List String → ℚ := fun _ _ => 0

/-- A degenerate distance function (every pair of points at distance 0),
used to instantiate the abstract haversine parameter on concrete inputs
whose two points coincide. -/
def zero_dist : ℚ → ℚ → ℚ → ℚ → ℚ := fun _ _ _ _ => 0

/-- The text of the spec's duplicate-submission scenario. -/
def c1_text : String := "Large pothole on Main St near the school"

/-- The single recent report of the spec's duplicate-submission scenario:
identical text, same coordinates as the submission, `created_at` equal to
the current time. -/
def c1_report : Report :=
  { text := some c1_text
    voice_text := none
    location := some { latitude := some 10, longitude := some 20 }
    created_at := some 0 }

/-! ### Helper lemmas: bounds of the individual signals -/

lemma length_penalty_nonneg (text : String) : 0 ≤ length_penalty text := by
  unfold length_penalty; split <;> norm_num

lemma gibberish_penalty_nonneg (text : String) : 0 ≤ gibberish_penalty text := by
  unfold gibberish_penalty; split <;> norm_num

lemma spam_penalty_nonneg (text : String) : 0 ≤ spam_penalty text := by
  unfold spam_penalty; split <;> norm_num

lemma upper_penalty_nonneg (text : String) : 0 ≤ upper_penalty text := by
  unfold upper_penalty; split <;> norm_num

lemma image_penalty_nonneg (image_path : Option ImageRef) : 0 ≤ image_penalty image_path := by
  rcases image_path with _ | ir
  · simp [image_penalty]
  · rcases ir with _ | n | _ <;> simp only [image_penalty] <;>
      first
        | (split <;> norm_num)
        | norm_num

lemma suspicion_raw_nonneg (text : String) (image_path : Option ImageRef) :
    0 ≤ suspicion_raw text image_path := by
  unfold suspicion_raw
  have h1 := length_penalty_nonneg text
  have h2 := gibberish_penalty_nonneg text
  have h3 := spam_penalty_nonneg text
  have h4 := upper_penalty_nonneg text
  have h5 := image_penalty_nonneg image_path
  split <;> linarith

lemma validate_content_nonneg (text : String) (image_path : Option ImageRef) :
    0 ≤ (validate_content text image_path).2 := by
  unfold validate_content
  split
  · norm_num
  · exact le_min (suspicion_raw_nonneg text image_path) (by norm_num)

lemma validate_content_le_one (text : String) (image_path : Option ImageRef) :
    (validate_content text image_path).2 ≤ 1 := by
  unfold validate_content
  split
  · norm_num
  · exact min_le_right _ _

lemma check_temporal_patterns_cases (now : ℚ) (recent_reports : List Report) :
    check_temporal_patterns now recent_reports = 0 ∨
    check_temporal_patterns now recent_reports = 3/10 ∨
    check_temporal_patterns now recent_reports = 5/10 ∨
    check_temporal_patterns now recent_reports = 8/10 := by
  unfold check_temporal_patterns
  split_ifs
  all_goals simp

lemma check_temporal_patterns_nonneg (now : ℚ) (recent_reports : List Report) :
    0 ≤ check_temporal_patterns now recent_reports := by
  rcases check_temporal_patterns_cases now recent_reports with h | h | h | h <;>
    rw [h] <;> norm_num

lemma check_temporal_patterns_le_one (now : ℚ) (recent_reports : List Report) :
    check_temporal_patterns now recent_reports ≤ 1 := by
  rcases check_temporal_patterns_cases now recent_reports with h | h | h | h <;>
    rw [h] <;> norm_num

lemma proximity_score_cases (d : ℚ → ℚ → ℚ → ℚ → ℚ)
    (latitude longitude : Option ℚ) (recent_reports : List Report) :
    proximity_score d latitude longitude recent_reports = 0 ∨
    proximity_score d latitude longitude recent_reports = 7/10 := by
  unfold proximity_score; split <;> simp

lemma proximity_score_nonneg (d : ℚ → ℚ → ℚ → ℚ → ℚ)
    (latitude longitude : Option ℚ) (recent_reports : List Report) :
    0 ≤ proximity_score d latitude longitude recent_reports := by
  rcases proximity_score_cases d latitude longitude recent_reports with h | h <;>
    rw [h] <;> norm_num

lemma proximity_score_le_one (d : ℚ → ℚ → ℚ → ℚ → ℚ)
    (latitude longitude : Option ℚ) (recent_reports : List Report) :
    proximity_score d latitude longitude recent_reports ≤ 1 := by
  rcases proximity_score_cases d latitude longitude recent_reports with h | h <;>
    rw [h] <;> norm_num

/-! ### Helper lemmas: the Jaccard fallback -/

lemma jaccard_nonneg (a b : Finset (List Char)) : 0 ≤ jaccard a b :=
  div_nonneg (Nat.cast_nonneg _) (Nat.cast_nonneg _)

lemma jaccard_le_one (a b : Finset (List Char)) : jaccard a b ≤ 1 := by
  unfold jaccard
  rcases Nat.eq_zero_or_pos (a ∪ b).card with h | h
  · simp [h]
  · rw [div_le_one (by exact_mod_cast h)]
    exact_mod_cast Finset.card_le_card Finset.inter_subset_union

lemma jaccard_self (a : Finset (List Char)) (h : a ≠ ∅) : jaccard a a = 1 := by
  unfold jaccard
  rw [Finset.inter_self, Finset.union_self, div_self]
  exact Nat.cast_ne_zero.mpr fun hc => h (Finset.card_eq_zero.mp hc)

lemma le_heuristic_step (tw : Finset (List Char)) (acc : ℚ) (ct : String) :
    acc ≤ heuristic_step tw acc ct := by
  unfold heuristic_step
  split_ifs <;> simp

lemma heuristic_step_le_one (tw : Finset (List Char)) (acc : ℚ) (ct : String)
    (h : acc ≤ 1) : heuristic_step tw acc ct ≤ 1 := by
  unfold heuristic_step
  split_ifs <;> first
    | exact h
    | exact max_le h (jaccard_le_one _ _)

lemma le_foldl_heuristic_step (tw : Finset (List Char)) (l : List String) (acc : ℚ) :
    acc ≤ l.foldl (heuristic_step tw) acc := by
  induction l generalizing acc with
  | nil => simp
  | cons ct rest ih => exact le_trans (le_heuristic_step tw acc ct) (ih _)

lemma foldl_heuristic_step_le_one (tw : Finset (List Char)) (l : List String) (acc : ℚ)
    (h : acc ≤ 1) : l.foldl (heuristic_step tw) acc ≤ 1 := by
  induction l generalizing acc with
  | nil => simpa
  | cons ct rest ih => exact ih _ (heuristic_step_le_one tw acc ct h)

lemma jaccard_le_foldl (tw : Finset (List Char)) (l : List String) (acc : ℚ) (ct : String)
    (hmem : ct ∈ l) (h1 : ct ≠ "") (h2 : word_set ct ≠ ∅)
    (h3 : tw ∪ word_set ct ≠ ∅) :
    jaccard tw (word_set ct) ≤ l.foldl (heuristic_step tw) acc := by
  induction l generalizing acc with
  | nil => cases hmem
  | cons hd rest ih =>
    rcases List.mem_cons.mp hmem with rfl | hmem
    · refine le_trans ?_ (le_foldl_heuristic_step tw rest (heuristic_step tw acc ct))
      unfold heuristic_step
      rw [if_neg h1, if_neg h2, if_neg h3]
      exact le_max_right _ _
    · exact ih _ hmem

/-! ### Claim C7: flat spam penalty -/

lemma spam_count_pos_iff (text : String) :
    0 < spam_count text ↔
      spam_indicators.any (fun ind => contains_sub ind.toList (lower_chars text)) = true := by
  unfold spam_count
  rw [← List.countP_eq_length_filter, List.countP_pos_iff, List.any_eq_true]

/-- C7: in `_validate_content` the spam penalty of +0.5 is applied exactly
once as soon as any of the five spam phrases occurs as a substring of the
lowercased text, independently of how many phrases match or how often they
occur: the count-based penalty of the source equals the flat any-based one,
its only values are 0 and 1/2, and the suspicion score of a report with text
contains the term `spam_penalty text` exactly once as an additive summand. -/
theorem spam_penalty_flat (text : String) :
    (spam_penalty text =
      if spam_indicators.any (fun ind => contains_sub ind.toList (lower_chars text)) then (1:ℚ)/2
      else 0) ∧
    (spam_penalty text = 0 ∨ spam_penalty text = 1/2) ∧
    (∀ image_path : Option ImageRef, text ≠ "" →
      (validate_content text image_path).2 =
        min (length_penalty text + gibberish_penalty text + spam_penalty text +
             upper_penalty text + image_penalty image_path) 1) := by
  refine ⟨?_, ?_, ?_⟩
  · unfold spam_penalty
    by_cases h : 0 < spam_count text
    · rw [if_pos h, if_pos ((spam_count_pos_iff text).mp h)]
    · rw [if_neg h, if_neg fun hc => h ((spam_count_pos_iff text).mpr hc)]
  · unfold spam_penalty
    split <;> simp
  · intro image_path htext
    unfold validate_content
    rw [if_neg fun hc => htext hc.1]
    show min (suspicion_raw text image_path) 1 = _
    unfold suspicion_raw
    rw [if_pos htext]

/-- Text used to instantiate the C7 theorem on a concrete input. -/
def c7_text : String := "free stuff"

/-- Witness for C7: the theorem applied to the concrete text
`"free stuff"` (which contains the spam phrase `"free"`) and no image. -/
theorem spam_penalty_flat_witness :
    (spam_penalty c7_text =
      if spam_indicators.any (fun ind => contains_sub ind.toList (lower_chars c7_text)) then (1:ℚ)/2
      else 0) ∧
    (spam_penalty c7_text = 0 ∨ spam_penalty c7_text = 1/2) ∧
    (validate_content c7_text none).2 =
      min (length_penalty c7_text + gibberish_penalty c7_text + spam_penalty c7_text +
           upper_penalty c7_text + image_penalty none) 1 := by
  obtain ⟨h1, h2, h3⟩ := spam_penalty_flat c7_text
  exact ⟨h1, h2, h3 none (by decide)⟩

/-! ### Claim C9: the proximity signal contributes 0.7, never 1.0 -/

/-- C9: the score the aggregator feeds into the weighted average for the
proximity signal is exactly 0.7 on a proximity hit (or invalid coordinates)
and 0.0 otherwise; in particular it is never 1. -/
theorem proximity_score_never_one (d : ℚ → ℚ → ℚ → ℚ → ℚ)
    (latitude longitude : Option ℚ) (recent_reports : List Report) :
    (proximity_score d latitude longitude recent_reports = 7/10 ∨
     proximity_score d latitude longitude recent_reports = 0) ∧
    (proximity_score d latitude longitude recent_reports = 7/10 ↔
      check_location_proximity d latitude longitude recent_reports = true) ∧
    proximity_score d latitude longitude recent_reports ≠ 1 := by
  unfold proximity_score
  split_ifs with h <;> refine ⟨?_, ?_, ?_⟩ <;> simp [h] <;> norm_num

/-! ### Claim C10: content and temporal weights are unconditional -/

/-- C10: the content weight 0.3 and the temporal weight 0.1 are added to the
weight sum on every call, so the weight sum is at least 0.4 and in
particular positive: the degenerate `final_score = 0.0` branch of `is_fake`
is unreachable and the returned score is always the normalized weighted
average `total_score / weight_sum` (which contains the content signal). -/
theorem weight_sum_always_positive (sim : String → List String → ℚ)
    (d : ℚ → ℚ → ℚ → ℚ → ℚ) (now : ℚ) (text : String) (image_path : Option ImageRef)
    (latitude longitude : Option ℚ) (recent_reports : List Report) :
    4/10 ≤ weight_sum text latitude longitude recent_reports ∧
    0 < weight_sum text latitude longitude recent_reports ∧
    (is_fake sim d now text image_path latitude longitude recent_reports).2 =
      total_score sim d now text image_path latitude longitude recent_reports /
        weight_sum text latitude longitude recent_reports := by
  have h1 : 4/10 ≤ weight_sum text latitude longitude recent_reports := by
    unfold weight_sum
    split_ifs <;> norm_num
  have h2 : 0 < weight_sum text latitude longitude recent_reports :=
    lt_of_lt_of_le (by norm_num) h1
  refine ⟨h1, h2, ?_⟩
  show final_score sim d now text image_path latitude longitude recent_reports = _
  unfold final_score
  rw [if_pos h2]

/-! ### Claim C6: the temporal burst ladder -/

/-- C6: the temporal burst score is 0.8 as soon as at least 5 recent reports
carry a parsable timestamp inside the 30-minute window, else 0.5 for at
least 3, else 0.3 for at least 2, else 0.0 (checked high to low, first match
wins); reports with a missing or unparsable timestamp are skipped, and the
result is always one of 0, 0.3, 0.5, 0.8. -/
theorem check_temporal_patterns_ladder (now : ℚ) (recent_reports : List Report) :
    (check_temporal_patterns now recent_reports =
      (let cnt := (recent_reports.filter fun r =>
          match r.created_at with
          | some t => decide (now - t ≤ 30)
          | none => false).length
       if 5 ≤ cnt then (8:ℚ)/10
       else if 3 ≤ cnt then 5/10
       else if 2 ≤ cnt then 3/10
       else 0)) ∧
    (check_temporal_patterns now recent_reports = 0 ∨
     check_temporal_patterns now recent_reports = 3/10 ∨
     check_temporal_patterns now recent_reports = 5/10 ∨
     check_temporal_patterns now recent_reports = 8/10) := by
  refine ⟨?_, check_temporal_patterns_cases now recent_reports⟩
  cases recent_reports with
  | nil => rfl
  | cons r rs => rfl

/-! ### Claim C5: the proximity check -/

lemma proximity_pred_iff (d : ℚ → ℚ → ℚ → ℚ → ℚ) (la lo : ℚ) (r : Report) :
    ((match report_coords r with
      | some (rla, rlo) => decide (d la lo rla rlo ≤ proximity_threshold_km)
      | none => false) = true) ↔
    ∃ rla rlo, report_coords r = some (rla, rlo) ∧
      d la lo rla rlo ≤ proximity_threshold_km := by
  rcases h : report_coords r with _ | ⟨rla, rlo⟩
  · simp [h]
  · simp only [h, decide_eq_true_eq, Option.some.injEq, Prod.mk.injEq]
    constructor
    · intro hd
      exact ⟨rla, rlo, ⟨rfl, rfl⟩, hd⟩
    · rintro ⟨a, b, ⟨rfl, rfl⟩, hd⟩
      exact hd

/-- C5: the proximity check returns `false` when either coordinate is
missing, `true` whenever the coordinates are out of the valid WGS84 ranges
(regardless of the recent reports), and otherwise `true` exactly when some
recent report carries coordinates (reports without usable coordinates are
skipped) within `proximity_threshold_km = 0.1` km of the input point for the
distance function `d` (the haversine distance with Earth radius 6371 km in
the source), boundary inclusive. -/
theorem check_location_proximity_spec (d : ℚ → ℚ → ℚ → ℚ → ℚ)
    (latitude longitude : Option ℚ) (recent_reports : List Report) :
    ((latitude = none ∨ longitude = none) →
      check_location_proximity d latitude longitude recent_reports = false) ∧
    (∀ la lo, latitude = some la → longitude = some lo →
      ((¬(-90 ≤ la ∧ la ≤ 90 ∧ -180 ≤ lo ∧ lo ≤ 180)) →
        check_location_proximity d latitude longitude recent_reports = true) ∧
      ((-90 ≤ la ∧ la ≤ 90 ∧ -180 ≤ lo ∧ lo ≤ 180) →
        (check_location_proximity d latitude longitude recent_reports = true ↔
          ∃ r ∈ recent_reports, ∃ rla rlo, report_coords r = some (rla, rlo) ∧
            d la lo rla rlo ≤ proximity_threshold_km))) := by
  constructor
  · rintro (rfl | rfl)
    · cases longitude <;> rfl
    · cases latitude <;> rfl
  · rintro la lo rfl rfl
    constructor
    · intro hrange
      show (if ¬(-90 ≤ la ∧ la ≤ 90 ∧ -180 ≤ lo ∧ lo ≤ 180) then true else _) = true
      rw [if_pos hrange]
    · intro hrange
      show (if ¬(-90 ≤ la ∧ la ≤ 90 ∧ -180 ≤ lo ∧ lo ≤ 180) then true else _) = true ↔ _
      rw [if_neg (not_not_intro hrange), List.any_eq_true]
      exact exists_congr fun r => and_congr_right fun _ => proximity_pred_iff d la lo r

/-- Recent report used to instantiate the C5 theorem on concrete input. -/
def c5_report : Report :=
  { text := none
    voice_text := none
    location := some { latitude := some 0, longitude := some 0 }
    created_at := none }

/-- Witness for C5: the theorem applied to in-range coordinates (0, 0), a
single recent report at the same point and a concrete distance function that
evaluates to 0 there, giving a proximity hit. -/
theorem check_location_proximity_spec_witness :
    check_location_proximity zero_dist (some 0) (some 0) [c5_report] = true := by
  have h := (check_location_proximity_spec zero_dist (some 0) (some 0) [c5_report]).2 0 0 rfl rfl
  exact (h.2 (by norm_num)).mpr
    ⟨c5_report, by simp, 0, 0, rfl, by norm_num [zero_dist, proximity_threshold_km]⟩

/-! ### Claim C8: Jaccard self-match -/

lemma union_word_set_ne_empty (tw : Finset (List Char)) (ct : String)
    (h : word_set ct ≠ ∅) : tw ∪ word_set ct ≠ ∅ := by
  intro hu
  exact h (Finset.union_eq_empty.mp hu).2

/-- C8: whenever the submitted text tokenizes to at least one word and the
corpus contains that exact text, the Jaccard fallback similarity is 1.0: the
self Jaccard similarity `|A ∩ A| / |A ∪ A|` is 1, the returned value is an
upper bound of the Jaccard similarity against every usable corpus entry
(it is the maximum over the corpus), and the result on a corpus containing
the text itself is exactly 1. -/
theorem heuristic_self_match (text : String) (corpus : List String)
    (htext : text ≠ "") (hw : word_set text ≠ ∅) (hmem : text ∈ corpus) :
    heuristic_text_similarity text corpus = 1 ∧
    jaccard (word_set text) (word_set text) = 1 ∧
    (∀ ct ∈ corpus, ct ≠ "" → word_set ct ≠ ∅ →
      jaccard (word_set text) (word_set ct) ≤ heuristic_text_similarity text corpus) := by
  have hcorp : corpus ≠ [] := by rintro rfl; cases hmem
  have hself : jaccard (word_set text) (word_set text) = 1 := jaccard_self _ hw
  have hrw : heuristic_text_similarity text corpus
      = corpus.foldl (heuristic_step (word_set text)) 0 := by
    unfold heuristic_text_similarity
    rw [if_neg (by simp [htext, hcorp]), if_neg hw]
  have hub : ∀ ct ∈ corpus, ct ≠ "" → word_set ct ≠ ∅ →
      jaccard (word_set text) (word_set ct) ≤ heuristic_text_similarity text corpus := by
    intro ct hct h1 h2
    rw [hrw]
    exact jaccard_le_foldl _ _ 0 _ hct h1 h2 (union_word_set_ne_empty _ _ h2)
  refine ⟨?_, hself, hub⟩
  have hge : (1:ℚ) ≤ heuristic_text_similarity text corpus := by
    have h := hub text hmem htext hw
    rwa [hself] at h
  have hle : heuristic_text_similarity text corpus ≤ 1 := by
    rw [hrw]
    exact foldl_heuristic_step_le_one _ _ _ (by norm_num)
  linarith

/-- Text used to instantiate the C8 theorem on a concrete input. -/
def c8_text : String := "duplicate pothole"

/-- Witness for C8: the theorem applied to a concrete two-word text and the
one-element corpus holding exactly that text. -/
theorem heuristic_self_match_witness :
    heuristic_text_similarity c8_text [c8_text] = 1 ∧
    jaccard (word_set c8_text) (word_set c8_text) = 1 ∧
    (∀ ct ∈ [c8_text], ct ≠ "" → word_set ct ≠ ∅ →
      jaccard (word_set c8_text) (word_set ct) ≤ heuristic_text_similarity c8_text [c8_text]) :=
  heuristic_self_match c8_text [c8_text] (by decide) (by decide)
    (List.mem_singleton.mpr rfl)

/-! ### Claim C2: the weighted-average formula -/

/-- C2: on every input the returned score is
`Σ(weight_i × score_i) / Σ(weight_i)` over exactly the evaluated signals —
content (0.3) and temporal burst (0.1) always evaluated, text similarity
(0.4) evaluated iff text, recent window and extracted corpus are all
nonempty, proximity (0.2) evaluated iff both coordinates are present and the
recent window is nonempty — with score 0.0 if no signal contributes. -/
theorem is_fake_weighted_average (sim : String → List String → ℚ) (d : ℚ → ℚ → ℚ → ℚ → ℚ)
    (now : ℚ) (text : String) (image_path : Option ImageRef)
    (latitude longitude : Option ℚ) (recent_reports : List Report) :
    (is_fake sim d now text image_path latitude longitude recent_reports).2 =
      claimed_fake_score sim d now text image_path latitude longitude recent_reports := by
  show final_score sim d now text image_path latitude longitude recent_reports = _
  cases hse : sim_evaluated text recent_reports <;>
    cases hpe : prox_evaluated latitude longitude recent_reports
  · have hs : ¬(text ≠ "" ∧ recent_reports ≠ [] ∧ build_corpus recent_reports ≠ []) := by
      simpa [sim_evaluated] using hse
    have hp : ¬(latitude ≠ none ∧ longitude ≠ none ∧ recent_reports ≠ []) := by
      simpa [prox_evaluated] using hpe
    norm_num [final_score, weight_sum, total_score, claimed_fake_score, evaluated_signals,
      hse, hpe, hs, hp]
    try ring
  · have hs : ¬(text ≠ "" ∧ recent_reports ≠ [] ∧ build_corpus recent_reports ≠ []) := by
      simpa [sim_evaluated] using hse
    have hp : latitude ≠ none ∧ longitude ≠ none ∧ recent_reports ≠ [] := by
      simpa [prox_evaluated] using hpe
    have hs2 : ¬(text ≠ "" ∧ build_corpus recent_reports ≠ []) :=
      fun h => hs ⟨h.1, hp.2.2, h.2⟩
    norm_num [final_score, weight_sum, total_score, claimed_fake_score, evaluated_signals,
      hse, hpe, hs, hs2, hp]
    try ring
  · have hs : text ≠ "" ∧ recent_reports ≠ [] ∧ build_corpus recent_reports ≠ [] := by
      simpa [sim_evaluated] using hse
    have hp : ¬(latitude ≠ none ∧ longitude ≠ none ∧ recent_reports ≠ []) := by
      simpa [prox_evaluated] using hpe
    have hp2 : ¬(latitude ≠ none ∧ longitude ≠ none) :=
      fun h => hp ⟨h.1, h.2, hs.2.1⟩
    norm_num [final_score, weight_sum, total_score, claimed_fake_score, evaluated_signals,
      hse, hpe, hs, hp, hp2]
    try ring
  · have hs : text ≠ "" ∧ recent_reports ≠ [] ∧ build_corpus recent_reports ≠ [] := by
      simpa [sim_evaluated] using hse
    have hp : latitude ≠ none ∧ longitude ≠ none ∧ recent_reports ≠ [] := by
      simpa [prox_evaluated] using hpe
    norm_num [final_score, weight_sum, total_score, claimed_fake_score, evaluated_signals,
      hse, hpe, hs, hp]
    try ring

/-! ### Claim C3: range invariant, threshold equivalence, convexity -/

/-- C3: for every input (and any similarity backend returning values in
`[0,1]`, as both the cosine and the Jaccard backends do), the returned pair
satisfies `fake_score ∈ [0,1]`, the boolean equals `fake_score ≥ 0.7`, and
the score is a convex combination of the signal scores: there are
nonnegative coefficients summing to 1 (zero on the signals that were not
evaluated) expressing it from the four signal scores. -/
theorem is_fake_invariants (sim : String → List String → ℚ) (d : ℚ → ℚ → ℚ → ℚ → ℚ)
    (now : ℚ) (text : String) (image_path : Option ImageRef)
    (latitude longitude : Option ℚ) (recent_reports : List Report)
    (hsim : ∀ t c, 0 ≤ sim t c ∧ sim t c ≤ 1) :
    0 ≤ (is_fake sim d now text image_path latitude longitude recent_reports).2 ∧
    (is_fake sim d now text image_path latitude longitude recent_reports).2 ≤ 1 ∧
    ((is_fake sim d now text image_path latitude longitude recent_reports).1 = true ↔
      7/10 ≤ (is_fake sim d now text image_path latitude longitude recent_reports).2) ∧
    ∃ a b c e : ℚ, 0 ≤ a ∧ 0 ≤ b ∧ 0 ≤ c ∧ 0 ≤ e ∧ a + b + c + e = 1 ∧
      (is_fake sim d now text image_path latitude longitude recent_reports).2 =
        a * (validate_content text image_path).2 +
        b * sim text (build_corpus recent_reports) +
        c * proximity_score d latitude longitude recent_reports +
        e * check_temporal_patterns now recent_reports := by
  have hC0 := validate_content_nonneg text image_path
  have hC1 := validate_content_le_one text image_path
  obtain ⟨hS0, hS1⟩ := hsim text (build_corpus recent_reports)
  have hP0 := proximity_score_nonneg d latitude longitude recent_reports
  have hP1 := proximity_score_le_one d latitude longitude recent_reports
  have hT0 := check_temporal_patterns_nonneg now recent_reports
  have hT1 := check_temporal_patterns_le_one now recent_reports
  have hth : (is_fake sim d now text image_path latitude longitude recent_reports).1 = true ↔
      7/10 ≤ (is_fake sim d now text image_path latitude longitude recent_reports).2 := by
    show decide (similarity_threshold ≤
      final_score sim d now text image_path latitude longitude recent_reports) = true ↔ _
    rw [decide_eq_true_eq]
    exact Iff.rfl
  have key : 0 ≤ final_score sim d now text image_path latitude longitude recent_reports ∧
      final_score sim d now text image_path latitude longitude recent_reports ≤ 1 ∧
      ∃ a b c e : ℚ, 0 ≤ a ∧ 0 ≤ b ∧ 0 ≤ c ∧ 0 ≤ e ∧ a + b + c + e = 1 ∧
        final_score sim d now text image_path latitude longitude recent_reports =
          a * (validate_content text image_path).2 +
          b * sim text (build_corpus recent_reports) +
          c * proximity_score d latitude longitude recent_reports +
          e * check_temporal_patterns now recent_reports := by
    cases hse : sim_evaluated text recent_reports <;>
      cases hpe : prox_evaluated latitude longitude recent_reports
    · have hws : weight_sum text latitude longitude recent_reports = 4/10 := by
        norm_num [weight_sum, hse, hpe]
      have hts : total_score sim d now text image_path latitude longitude recent_reports =
          (validate_content text image_path).2 * (3/10)
            + check_temporal_patterns now recent_reports * (1/10) := by
        norm_num [total_score, hse, hpe]
      have hfs : final_score sim d now text image_path latitude longitude recent_reports =
          ((validate_content text image_path).2 * (3/10)
            + check_temporal_patterns now recent_reports * (1/10)) / (4/10) := by
        unfold final_score
        rw [hws, hts, if_pos (by norm_num)]
      refine ⟨?_, ?_, 3/4, 0, 0, 1/4, by norm_num, by norm_num, by norm_num, by norm_num,
        by norm_num, ?_⟩
      · rw [hfs]
        have h1 : 0 ≤ (validate_content text image_path).2 * (3/10) :=
          mul_nonneg hC0 (by norm_num)
        have h2 : 0 ≤ check_temporal_patterns now recent_reports * (1/10) :=
          mul_nonneg hT0 (by norm_num)
        exact div_nonneg (by linarith) (by norm_num)
      · rw [hfs, div_le_one (by norm_num)]
        linarith
      · rw [hfs]
        field_simp
        ring
    · have hws : weight_sum text latitude longitude recent_reports = 6/10 := by
        norm_num [weight_sum, hse, hpe]
      have hts : total_score sim d now text image_path latitude longitude recent_reports =
          (validate_content text image_path).2 * (3/10)
            + proximity_score d latitude longitude recent_reports * (2/10)
            + check_temporal_patterns now recent_reports * (1/10) := by
        norm_num [total_score, hse, hpe]
      have hfs : final_score sim d now text image_path latitude longitude recent_reports =
          ((validate_content text image_path).2 * (3/10)
            + proximity_score d latitude longitude recent_reports * (2/10)
            + check_temporal_patterns now recent_reports * (1/10)) / (6/10) := by
        unfold final_score
        rw [hws, hts, if_pos (by norm_num)]
      refine ⟨?_, ?_, 1/2, 0, 1/3, 1/6, by norm_num, by norm_num, by norm_num, by norm_num,
        by norm_num, ?_⟩
      · rw [hfs]
        have h1 : 0 ≤ (validate_content text image_path).2 * (3/10) :=
          mul_nonneg hC0 (by norm_num)
        have h2 : 0 ≤ proximity_score d latitude longitude recent_reports * (2/10) :=
          mul_nonneg hP0 (by norm_num)
        have h3 : 0 ≤ check_temporal_patterns now recent_reports * (1/10) :=
          mul_nonneg hT0 (by norm_num)
        exact div_nonneg (by linarith) (by norm_num)
      · rw [hfs, div_le_one (by norm_num)]
        linarith
      · rw [hfs]
        field_simp
        ring
    · have hws : weight_sum text latitude longitude recent_reports = 8/10 := by
        norm_num [weight_sum, hse, hpe]
      have hts : total_score sim d now text image_path latitude longitude recent_reports =
          (validate_content text image_path).2 * (3/10)
            + sim text (build_corpus recent_reports) * (4/10)
            + check_temporal_patterns now recent_reports * (1/10) := by
        norm_num [total_score, hse, hpe]
      have hfs : final_score sim d now text image_path latitude longitude recent_reports =
          ((validate_content text image_path).2 * (3/10)
            + sim text (build_corpus recent_reports) * (4/10)
            + check_temporal_patterns now recent_reports * (1/10)) / (8/10) := by
        unfold final_score
        rw [hws, hts, if_pos (by norm_num)]
      refine ⟨?_, ?_, 3/8, 1/2, 0, 1/8, by norm_num, by norm_num, by norm_num, by norm_num,
        by norm_num, ?_⟩
      · rw [hfs]
        have h1 : 0 ≤ (validate_content text image_path).2 * (3/10) :=
          mul_nonneg hC0 (by norm_num)
        have h2 : 0 ≤ sim text (build_corpus recent_reports) * (4/10) :=
          mul_nonneg hS0 (by norm_num)
        have h3 : 0 ≤ check_temporal_patterns now recent_reports * (1/10) :=
          mul_nonneg hT0 (by norm_num)
        exact div_nonneg (by linarith) (by norm_num)
      · rw [hfs, div_le_one (by norm_num)]
        linarith
      · rw [hfs]
        field_simp
        ring
    · have hws : weight_sum text latitude longitude recent_reports = 1 := by
        norm_num [weight_sum, hse, hpe]
      have hts : total_score sim d now text image_path latitude longitude recent_reports =
          (validate_content text image_path).2 * (3/10)
            + sim text (build_corpus recent_reports) * (4/10)
            + proximity_score d latitude longitude recent_reports * (2/10)
            + check_temporal_patterns now recent_reports * (1/10) := by
        norm_num [total_score, hse, hpe]
      have hfs : final_score sim d now text image_path latitude longitude recent_reports =
          (validate_content text image_path).2 * (3/10)
            + sim text (build_corpus recent_reports) * (4/10)
            + proximity_score d latitude longitude recent_reports * (2/10)
            + check_temporal_patterns now recent_reports * (1/10) := by
        unfold final_score
        rw [hws, hts, if_pos (by norm_num), div_one]
      refine ⟨?_, ?_, 3/10, 4/10, 2/10, 1/10, by norm_num, by norm_num, by norm_num,
        by norm_num, by norm_num, ?_⟩
      · rw [hfs]
        have h1 : 0 ≤ (validate_content text image_path).2 * (3/10) :=
          mul_nonneg hC0 (by norm_num)
        have h2 : 0 ≤ sim text (build_corpus recent_reports) * (4/10) :=
          mul_nonneg hS0 (by norm_num)
        have h3 : 0 ≤ proximity_score d latitude longitude recent_reports * (2/10) :=
          mul_nonneg hP0 (by norm_num)
        have h4 : 0 ≤ check_temporal_patterns now recent_reports * (1/10) :=
          mul_nonneg hT0 (by norm_num)
        linarith
      · rw [hfs]
        linarith
      · rw [hfs]
        ring
  exact ⟨key.1, key.2.1, hth, key.2.2⟩

/-- Witness for C3: the theorem applied to the constant-zero backend (the
scikit-learn-unavailable environment) on a fully degenerate input. -/
theorem is_fake_invariants_witness :
    0 ≤ (is_fake zero_sim zero_dist 0 ("") none none none []).2 ∧
    (is_fake zero_sim zero_dist 0 ("") none none none []).2 ≤ 1 ∧
    ((is_fake zero_sim zero_dist 0 ("") none none none []).1 = true ↔
      7/10 ≤ (is_fake zero_sim zero_dist 0 ("") none none none []).2) ∧
    ∃ a b c e : ℚ, 0 ≤ a ∧ 0 ≤ b ∧ 0 ≤ c ∧ 0 ≤ e ∧ a + b + c + e = 1 ∧
      (is_fake zero_sim zero_dist 0 ("") none none none []).2 =
        a * (validate_content ("") none).2 +
        b * zero_sim ("") (build_corpus []) +
        c * proximity_score zero_dist none none [] +
        e * check_temporal_patterns 0 [] :=
  is_fake_invariants zero_sim zero_dist 0 ("") none none none []
    (fun _ _ => by norm_num [zero_sim])

/-! ### Claim C1: the spec's duplicate-submission scenario

Evaluation of `is_fake` on the scenario input: identical text, same
coordinates, one recent report timestamped at the current minute.  The
content signal scores 0, the similarity signal 1, the proximity signal 0.7
and the temporal signal 0 (a single report in the window is below the
2-report threshold), so the score is
`(0 · 0.3 + 1 · 0.4 + 0.7 · 0.2 + 0 · 0.1) / 1 = 0.54 < 0.7`. -/

lemma heuristic_self_one (text : String) (htext : text ≠ "") (hw : word_set text ≠ ∅) :
    heuristic_text_similarity text [text] = 1 := by
  have h1 : heuristic_text_similarity text [text] =
      List.foldl (heuristic_step (word_set text)) 0 [text] := by
    unfold heuristic_text_similarity
    rw [if_neg (by simp [htext]), if_neg hw]
  rw [h1]
  show heuristic_step (word_set text) 0 text = 1
  unfold heuristic_step
  rw [if_neg htext, if_neg hw, if_neg (union_word_set_ne_empty _ _ hw), jaccard_self _ hw]
  exact max_eq_right (by norm_num)

lemma c1_length_penalty : length_penalty c1_text = 0 := by
  unfold length_penalty
  rw [if_neg (by decide)]

lemma c1_gibberish_penalty : gibberish_penalty c1_text = 0 := by
  unfold gibberish_penalty
  rw [show (lower_chars c1_text).dedup.length = 15 from by decide,
      show c1_text.toList.length = 40 from by decide,
      if_neg (by norm_num)]

lemma c1_spam_penalty : spam_penalty c1_text = 0 := by
  unfold spam_penalty
  rw [show spam_count c1_text = 0 from by decide, if_neg (by decide)]

lemma c1_upper_penalty : upper_penalty c1_text = 0 := by
  unfold upper_penalty
  rw [if_neg (by decide)]

lemma c1_content : validate_content c1_text none = (true, 0) := by
  unfold validate_content
  rw [if_neg (by decide)]
  have hs : suspicion_raw c1_text none = 0 := by
    unfold suspicion_raw
    rw [if_pos (by decide), c1_length_penalty, c1_gibberish_penalty, c1_spam_penalty,
      c1_upper_penalty]
    norm_num [image_penalty]
  rw [hs]
  simp only [Prod.mk.injEq]
  exact ⟨decide_eq_true (by norm_num), min_eq_left (by norm_num)⟩

lemma c1_corpus : build_corpus [c1_report] = [c1_text] := by decide

lemma c1_sim : heuristic_text_similarity c1_text [c1_text] = 1 :=
  heuristic_self_one c1_text (by decide) (by decide)

lemma c1_sim_evaluated : sim_evaluated c1_text [c1_report] = true := by decide

lemma c1_prox_evaluated : prox_evaluated (some 10) (some 20) [c1_report] = true := by decide

lemma c1_prox (d : ℚ → ℚ → ℚ → ℚ → ℚ) (hd : d 10 20 10 20 ≤ proximity_threshold_km) :
    check_location_proximity d (some 10) (some 20) [c1_report] = true := by
  show (if ¬((-90:ℚ) ≤ 10 ∧ (10:ℚ) ≤ 90 ∧ (-180:ℚ) ≤ 20 ∧ (20:ℚ) ≤ 180) then true
        else List.any [c1_report] fun report =>
          match report_coords report with
          | some (rla, rlo) => decide (d 10 20 rla rlo ≤ proximity_threshold_km)
          | none => false) = true
  rw [if_neg (not_not_intro (by norm_num)), List.any_eq_true]
  refine ⟨c1_report, List.mem_singleton.mpr rfl, ?_⟩
  exact decide_eq_true hd

lemma c1_within : within_window 0 c1_report = true := by
  show decide ((0:ℚ) - 0 ≤ temporal_window_minutes) = true
  exact decide_eq_true (by norm_num [temporal_window_minutes])

lemma c1_recent_count : recent_count 0 [c1_report] = 1 := by
  unfold recent_count
  simp [List.filter_cons, c1_within]

lemma c1_temporal : check_temporal_patterns 0 [c1_report] = 0 := by
  unfold check_temporal_patterns
  rw [if_neg (by decide), c1_recent_count]
  norm_num

lemma c1_eval (d : ℚ → ℚ → ℚ → ℚ → ℚ) (hd : d 10 20 10 20 ≤ proximity_threshold_km) :
    is_fake heuristic_text_similarity d 0 c1_text none (some 10) (some 20) [c1_report] =
      (false, 27/50) := by
  have hws : weight_sum c1_text (some 10) (some 20) [c1_report] = 1 := by
    norm_num [weight_sum, c1_sim_evaluated, c1_prox_evaluated]
  have hprox_score : proximity_score d (some 10) (some 20) [c1_report] = 7/10 := by
    unfold proximity_score
    rw [if_pos (c1_prox d hd)]
  have hts : total_score heuristic_text_similarity d 0 c1_text none
      (some 10) (some 20) [c1_report] = 27/50 := by
    unfold total_score
    rw [c1_content, c1_corpus, c1_sim_evaluated, c1_prox_evaluated, c1_sim, hprox_score,
      c1_temporal]
    norm_num
  have hfs : final_score heuristic_text_similarity d 0 c1_text none
      (some 10) (some 20) [c1_report] = 27/50 := by
    unfold final_score
    rw [hws, hts, if_pos (by norm_num), div_one]
  show (decide (similarity_threshold ≤ final_score heuristic_text_similarity d 0 c1_text none
      (some 10) (some 20) [c1_report]),
    final_score heuristic_text_similarity d 0 c1_text none (some 10) (some 20) [c1_report]) = _
  rw [hfs]
  simp only [Prod.mk.injEq]
  exact ⟨decide_eq_false (by norm_num [similarity_threshold]), trivial⟩

/-- Counterexample for C1: on the spec's duplicate-submission scenario —
identical text in the recent window, a recent report at the same in-range
coordinates (distance-0 point), `created_at` at the current minute — the
detector returns `is_fake = false` with a score strictly below 0.7, refuting
the claimed `(True, ≥ 0.7)`. -/
theorem c1_counterexample :
    (is_fake heuristic_text_similarity zero_dist 0 c1_text none
        (some 10) (some 20) [c1_report]).1 = false ∧
    (is_fake heuristic_text_similarity zero_dist 0 c1_text none
        (some 10) (some 20) [c1_report]).2 < 7/10 := by
  rw [c1_eval zero_dist (by norm_num [zero_dist, proximity_threshold_km])]
  exact ⟨rfl, by norm_num⟩

/-- C1 (amended): on the spec's duplicate-submission scenario the detector
returns `(is_fake = False, fake_score = 0.54)`: content scores 0,
similarity 1.0 (weight 0.4), proximity 0.7 (weight 0.2), temporal 0.0
(one report is below the 2-report burst threshold), so the weighted
average is 0.54, below the 0.7 threshold. -/
theorem c1_amended (d : ℚ → ℚ → ℚ → ℚ → ℚ)
    (hd : d 10 20 10 20 ≤ proximity_threshold_km) :
    is_fake heuristic_text_similarity d 0 c1_text none (some 10) (some 20) [c1_report] =
      (false, 27/50) :=
  c1_eval d hd

/-- Witness for the amended C1: the concrete distance function that is 0 on
the scenario's coinciding coordinates (as the haversine distance is). -/
theorem c1_amended_witness :
    is_fake heuristic_text_similarity zero_dist 0 c1_text none (some 10) (some 20) [c1_report] =
      (false, 27/50) :=
  c1_amended zero_dist (by norm_num [zero_dist, proximity_threshold_km])

/-! ### Claim C4: empty text and no image -/

lemma c4_eval (sim : String → List String → ℚ) (d : ℚ → ℚ → ℚ → ℚ → ℚ) (now : ℚ) :
    is_fake sim d now ("") none none none [] = (false, 27/40) := by
  have hse : sim_evaluated ("") [] = false := by decide
  have hpe : prox_evaluated none none [] = false := by decide
  have hcontent : validate_content ("") none = (false, 9/10) := rfl
  have htemp : check_temporal_patterns now [] = 0 := rfl
  have hws : weight_sum ("") none none [] = 4/10 := by
    norm_num [weight_sum, hse, hpe]
  have hts : total_score sim d now ("") none none none [] = 27/100 := by
    unfold total_score
    rw [hcontent, hse, hpe, htemp]
    norm_num
  have hfs : final_score sim d now ("") none none none [] = 27/40 := by
    unfold final_score
    rw [hws, hts, if_pos (by norm_num)]
    norm_num
  show (decide (similarity_threshold ≤ final_score sim d now ("") none none none []),
    final_score sim d now ("") none none none []) = _
  rw [hfs]
  simp only [Prod.mk.injEq]
  exact ⟨decide_eq_false (by norm_num [similarity_threshold]), trivial⟩

/-- Counterexample for C4: with empty text, no image, no coordinates and an
empty recent window, the score is 27/40 = 0.675, not approximately 0.9 (it
is even below 0.85 and below the 0.7 threshold): the always-evaluated
temporal weight 0.1 dilutes the content signal. -/
theorem c4_counterexample :
    (is_fake zero_sim zero_dist 0 ("") none none none []).2 = 27/40 ∧
    (is_fake zero_sim zero_dist 0 ("") none none none []).2 < 17/20 := by
  rw [c4_eval zero_sim zero_dist 0]
  exact ⟨rfl, by norm_num⟩

/-- C4 (amended): when text is empty and no image is given (content
suspicion 0.9) and no other signal can fire (no coordinates, empty recent
window), the score is the content signal diluted by the always-evaluated
temporal weight: `0.9 · 0.3 / (0.3 + 0.1) = 0.675`, and the report is not
flagged. -/
theorem c4_amended (sim : String → List String → ℚ) (d : ℚ → ℚ → ℚ → ℚ → ℚ) (now : ℚ) :
    is_fake sim d now ("") none none none [] = (false, 27/40) :=
  c4_eval sim d now

end FakeDetect
